import Mathlib

/-!
# Verification of the FHIR → QRDA Category I document assembler

Shallow embedding of `src/packages/ccda/src/fhir-to-qrda.ts` together with
its constant tables (`qrda-templates.ts`, `qrda-systems.ts`, `qrda-types.ts`).
External collaborators are modelled as explicit parameters:

* `mapFhirToCcdaDateTime` (from `./datetime`, not part of the sources) is a
  pure timestamp canonicalizer, passed as a function `fmt : String → String`;
* `generateId` (from `@medplum/core`) is a fresh-unique-id generator, passed
  as a sequence `ids : Nat → String`; the n-th call site of a single
  conversion reads `ids n`.  Call order in the source: document id (0),
  legal authenticator id (1), measure organizer id (2), reporting act id (3);
* `new Date().toISOString()` is the captured build-time timestamp, passed
  as `now : String`.

JavaScript quirks are embedded explicitly: `a ?? b` becomes `Option.getD`,
`a || b` becomes `jsOr` (the empty string is falsy), and a template literal
interpolating a possibly-`undefined` value becomes `jsStr`.
-/

namespace Qrda

/-- JS `??` on an optional string. -/
def coal (v : Option String) (d : String) : String := v.getD d

/-- JS `||` on an optional string: `undefined` and `""` are both falsy. -/
def jsOr (v : Option String) (d : String) : String :=
  match v with
  | none => d
  | some s => if s = "" then d else s

/-- JS template-literal rendering of a possibly-undefined string. -/
def jsStr (v : Option String) : String :=
  match v with
  | none => "undefined"
  | some s => s

/-! ## FHIR input model (the fields of Bundle/Patient the converter reads) -/

/-- FHIR ContactPoint: the fields read by the converter. -/
structure ContactPoint where
  system : Option String := none
  value : Option String := none
deriving DecidableEq, Repr

/-- FHIR Address: the fields read by the converter. -/
structure Address where
  line : List String := []
  city : Option String := none
  state : Option String := none
  postalCode : Option String := none
  country : Option String := none
deriving DecidableEq, Repr

/-- FHIR HumanName: the fields read by the converter. -/
structure HumanName where
  given : List String := []
  family : Option String := none
deriving DecidableEq, Repr

/-- FHIR Patient: the fields read by the converter. -/
structure Patient where
  id : Option String := none
  name : List HumanName := []
  address : List Address := []
  telecom : List ContactPoint := []
  gender : Option String := none
  birthDate : Option String := none
deriving DecidableEq, Repr

/-- A resource in the bundle: either a Patient or some other resource,
identified by its `resourceType` discriminator. -/
inductive Resource where
  | patient (p : Patient)
  | other (rt : String)
deriving DecidableEq, Repr

/-- The `resourceType` discriminator of a resource. -/
def Resource.resourceType : Resource → String
  | .patient _ => "Patient"
  | .other rt => rt

/-- The unchecked TS cast `resource as Patient`: a non-Patient object read
as a Patient has every demographic field `undefined`. -/
def Resource.asPatient : Resource → Patient
  | .patient p => p
  | .other _ => {}

/-- FHIR Bundle entry: the `resource` field, which may be absent. -/
structure BundleEntry where
  resource : Option Resource := none
deriving DecidableEq, Repr

/-- FHIR Bundle: the `entry` field, which may be absent. -/
structure Bundle where
  entry : Option (List BundleEntry) := none
deriving DecidableEq, Repr

/-! ## Conversion options (`FhirToQrdaOptions`) -/

/-- The `measure` option group. -/
structure MeasureOptions where
  id : Option String := none
  title : Option String := none
  version : Option String := none
  setId : Option String := none
deriving DecidableEq, Repr

/-- The `organization.address` option group. -/
structure OrgAddressOptions where
  line : Option String := none
  city : Option String := none
  state : Option String := none
  postalCode : Option String := none
  country : Option String := none
deriving DecidableEq, Repr

/-- The `organization` option group. -/
structure OrganizationOptions where
  name : Option String := none
  id : Option String := none
  npi : Option String := none
  address : Option OrgAddressOptions := none
deriving DecidableEq, Repr

/-- The `author` option group. -/
structure AuthorOptions where
  name : Option String := none
  npi : Option String := none
deriving DecidableEq, Repr

/-- `FhirToQrdaOptions`: the options record of the converter. -/
structure FhirToQrdaOptions where
  category : Option String := none
  measure : Option MeasureOptions := none
  reportingPeriodStart : String
  reportingPeriodEnd : String
  organization : Option OrganizationOptions := none
  author : Option AuthorOptions := none
deriving DecidableEq, Repr

/-! ## OID and vocabulary constants

The LOINC/SNOMED/GUID constants come from `qrda-systems.ts` (in the
sources).  The OID tables `oids.ts` and `qrda-oids.ts` are not part of the
sources. -/

/-- Modelled from the spec: `oids.ts` is not under the sources; each OID is a
fixed dotted-decimal identifier string whose exact digits no claim depends
on, so it is modelled as a fixed distinct placeholder string. -/
def OID_HL7_REGISTERED_MODELS : String := "oid:hl7-registered-models"

/-- Modelled from the spec: see `OID_HL7_REGISTERED_MODELS`. -/
def OID_LOINC_CODE_SYSTEM : String := "oid:loinc-code-system"

/-- Modelled from the spec: see `OID_HL7_REGISTERED_MODELS`. -/
def OID_US_REALM_CDA_HEADER : String := "oid:us-realm-cda-header"

/-- Modelled from the spec: `qrda-oids.ts` is not under the sources; each OID
is a fixed distinct placeholder string (see `OID_HL7_REGISTERED_MODELS`). -/
def OID_QRDA_CATEGORY_I : String := "oid:qrda-category-i"

/-- Modelled from the spec: see `OID_QRDA_CATEGORY_I`. -/
def OID_QDM_BASED_QRDA : String := "oid:qdm-based-qrda"

/-- Modelled from the spec: see `OID_QRDA_CATEGORY_I`. -/
def OID_CMS_QRDA_CATEGORY_I : String := "oid:cms-qrda-category-i"

/-- Modelled from the spec: see `OID_QRDA_CATEGORY_I`. -/
def OID_MEASURE_SECTION : String := "oid:measure-section"

/-- Modelled from the spec: see `OID_QRDA_CATEGORY_I`. -/
def OID_MEASURE_SECTION_QDM : String := "oid:measure-section-qdm"

/-- Modelled from the spec: see `OID_QRDA_CATEGORY_I`. -/
def OID_MEASURE_REFERENCE : String := "oid:measure-reference"

/-- Modelled from the spec: see `OID_QRDA_CATEGORY_I`. -/
def OID_EMEASURE_REFERENCE_QDM : String := "oid:emeasure-reference-qdm"

/-- Modelled from the spec: see `OID_QRDA_CATEGORY_I`. -/
def OID_REPORTING_PARAMETERS_SECTION : String := "oid:reporting-parameters-section"

/-- Modelled from the spec: see `OID_QRDA_CATEGORY_I`. -/
def OID_REPORTING_PARAMETERS_SECTION_CMS : String := "oid:reporting-parameters-section-cms"

/-- Modelled from the spec: see `OID_QRDA_CATEGORY_I`. -/
def OID_REPORTING_PARAMETERS_ACT : String := "oid:reporting-parameters-act"

/-- Modelled from the spec: see `OID_QRDA_CATEGORY_I`. -/
def OID_REPORTING_PARAMETERS_ACT_CMS : String := "oid:reporting-parameters-act-cms"

/-- Modelled from the spec: see `OID_QRDA_CATEGORY_I`. -/
def OID_PATIENT_DATA_SECTION : String := "oid:patient-data-section"

/-- Modelled from the spec: see `OID_QRDA_CATEGORY_I`. -/
def OID_PATIENT_DATA_SECTION_QDM_V8 : String := "oid:patient-data-section-qdm-v8"

/-- Modelled from the spec: see `OID_QRDA_CATEGORY_I`. -/
def OID_PATIENT_DATA_SECTION_QDM_V8_CMS : String := "oid:patient-data-section-qdm-v8-cms"

/-- Modelled from the spec: see `OID_QRDA_CATEGORY_I`. -/
def OID_CCN_SYSTEM : String := "oid:ccn-system"

/-- Modelled from the spec: see `OID_QRDA_CATEGORY_I`. -/
def OID_CMS_EHR_CERTIFICATION_NUMBER : String := "oid:cms-ehr-certification-number"

/-- Modelled from the spec: see `OID_QRDA_CATEGORY_I`. -/
def OID_ECQM_VERSION_SPECIFIC_ID : String := "oid:ecqm-version-specific-id"

/-- Modelled from the spec: see `OID_QRDA_CATEGORY_I`. -/
def OID_ITIN_ID : String := "oid:itin-id"

/-- Modelled from the spec: see `OID_QRDA_CATEGORY_I`. -/
def OID_ORGANIZATION_ID : String := "oid:organization-id"

/-- Modelled from the spec: see `OID_QRDA_CATEGORY_I`. -/
def OID_PATIENT_ID : String := "oid:patient-id"

/-- From `qrda-systems.ts`. -/
def LOINC_MEASURE_DOCUMENT : String := "55186-1"

/-- From `qrda-systems.ts`. -/
def LOINC_PATIENT_DATA : String := "55188-7"

/-- From `qrda-systems.ts`. -/
def LOINC_QUALITY_MEASURE_REPORT : String := "55182-0"

/-- From `qrda-systems.ts`. -/
def LOINC_REPORTING_PARAMETERS : String := "55187-9"

/-- From `qrda-systems.ts`. -/
def SNOMED_OBSERVATION_PARAMETERS : String := "252116004"

/-- From `qrda-systems.ts`: the embedded default reference-measure GUID. -/
def CMS68V14_MEASURE_GUID : String := "9A032D9C-3D9B-11E1-8634-00237D5BF174"

/-! ## Output document model -/

/-- A CDA template identifier: `@_root` with optional `@_extension` and
optional `@_assigningAuthorityName`. -/
structure CcdaTemplateId where
  root : String
  ext : Option String := none
  assigningAuthorityName : Option String := none
deriving DecidableEq, Repr

/-- A CDA instance identifier: optional `@_root` / `@_extension`. -/
structure CcdaId where
  root : Option String := none
  ext : Option String := none
deriving DecidableEq, Repr

/-- A coded value: `@_code` / `@_codeSystem` / `@_codeSystemName` /
`@_displayName`, each key present only where the source writes it. -/
structure CcdaCode where
  code : Option String := none
  codeSystem : Option String := none
  codeSystemName : Option String := none
  displayName : Option String := none
deriving DecidableEq, Repr

/-- An address block as emitted by the converter (all leaves are strings). -/
structure CcdaAddr where
  use : Option String := none
  streetAddressLine : String
  city : String
  state : String
  postalCode : String
  country : String
deriving DecidableEq, Repr

/-- A telecom entry: `@_use` and `@_value`. -/
structure TelecomEntry where
  use : String
  value : String
deriving DecidableEq, Repr

/-- A person name as emitted: one given and one family string. -/
structure CcdaPersonName where
  given : String
  family : String
deriving DecidableEq, Repr

/-- An interval endpoint: `@_value` or `@_nullFlavor`. -/
structure TimeBound where
  value : Option String := none
  nullFlavor : Option String := none
deriving DecidableEq, Repr

/-- A low/high time interval. -/
structure TimeInterval where
  low : TimeBound
  high : TimeBound
deriving DecidableEq, Repr

/-- The `languageCommunication` block of the patient. -/
structure LanguageCommunication where
  templateId : List CcdaTemplateId
  languageCode : CcdaCode
deriving DecidableEq, Repr

/-- The `patient` block inside `patientRole`. -/
structure CcdaPatient where
  name : CcdaPersonName
  administrativeGenderCode : CcdaCode
  birthTime : String
  raceCode : CcdaCode
  ethnicGroupCode : CcdaCode
  languageCommunication : LanguageCommunication
deriving DecidableEq, Repr

/-- The `patientRole` block of the record target. -/
structure PatientRole where
  id : CcdaId
  addr : Option CcdaAddr
  telecom : List TelecomEntry
  patient : CcdaPatient
deriving DecidableEq, Repr

/-- The `recordTarget` block. -/
structure RecordTarget where
  patientRole : PatientRole
deriving DecidableEq, Repr

/-- The `assignedAuthoringDevice` block. -/
structure AssignedAuthoringDevice where
  manufacturerModelName : String
  softwareName : String
deriving DecidableEq, Repr

/-- The `assignedAuthor` block. -/
structure AssignedAuthor where
  id : CcdaId
  addr : CcdaAddr
  telecom : TelecomEntry
  assignedAuthoringDevice : AssignedAuthoringDevice
deriving DecidableEq, Repr

/-- The `author` block. -/
structure Author where
  time : String
  assignedAuthor : AssignedAuthor
deriving DecidableEq, Repr

/-- The `representedCustodianOrganization` block. -/
structure RepresentedCustodianOrganization where
  id : CcdaId
  name : String
  telecom : TelecomEntry
  addr : CcdaAddr
deriving DecidableEq, Repr

/-- The `assignedCustodian` block. -/
structure AssignedCustodian where
  representedCustodianOrganization : RepresentedCustodianOrganization
deriving DecidableEq, Repr

/-- The `custodian` block. -/
structure Custodian where
  assignedCustodian : AssignedCustodian
deriving DecidableEq, Repr

/-- The `assignedPerson` block. -/
structure AssignedPerson where
  name : CcdaPersonName
deriving DecidableEq, Repr

/-- A `representedOrganization` block (name and addr each present only where
the source writes them). -/
structure RepresentedOrganization where
  id : CcdaId
  name : Option String := none
  addr : Option CcdaAddr := none
deriving DecidableEq, Repr

/-- The legal authenticator's `assignedEntity` block. -/
structure LegalAuthAssignedEntity where
  id : CcdaId
  addr : CcdaAddr
  telecom : TelecomEntry
  assignedPerson : AssignedPerson
  representedOrganization : RepresentedOrganization
deriving DecidableEq, Repr

/-- The `legalAuthenticator` block. -/
structure LegalAuthenticator where
  time : String
  signatureCode : CcdaCode
  assignedEntity : LegalAuthAssignedEntity
deriving DecidableEq, Repr

/-- The `associatedEntity` block of a participant (`qrda-types.ts`). -/
structure QrdaAssociatedEntity where
  classCode : String
  id : CcdaId
deriving DecidableEq, Repr

/-- A device participant (`qrda-types.ts`). -/
structure QrdaParticipant where
  typeCode : String
  associatedEntity : QrdaAssociatedEntity
deriving DecidableEq, Repr

/-- The performer's `assignedEntity` block inside `documentationOf`. -/
structure DocAssignedEntity where
  id : List CcdaId
  code : CcdaCode
  addr : CcdaAddr
  assignedPerson : AssignedPerson
  representedOrganization : RepresentedOrganization
deriving DecidableEq, Repr

/-- The `performer` block inside `documentationOf`. -/
structure DocPerformer where
  typeCode : String
  time : TimeInterval
  assignedEntity : DocAssignedEntity
deriving DecidableEq, Repr

/-- The `serviceEvent` block inside `documentationOf`. -/
structure ServiceEvent where
  classCode : String
  effectiveTime : TimeInterval
  performer : DocPerformer
deriving DecidableEq, Repr

/-- The `documentationOf` block. -/
structure DocumentationOf where
  typeCode : String
  serviceEvent : ServiceEvent
deriving DecidableEq, Repr

/-- A header row of the measure section's summary table. -/
structure TableRowTh where
  th : List String
deriving DecidableEq, Repr

/-- A body row of the measure section's summary table. -/
structure TableRowTd where
  td : List String
deriving DecidableEq, Repr

/-- The `thead` block of the measure section's summary table. -/
structure MeasureTableHead where
  tr : TableRowTh
deriving DecidableEq, Repr

/-- The `tbody` block of the measure section's summary table. -/
structure MeasureTableBody where
  tr : TableRowTd
deriving DecidableEq, Repr

/-- The measure section's summary table. -/
structure MeasureTable where
  border : String
  width : String
  thead : MeasureTableHead
  tbody : MeasureTableBody
deriving DecidableEq, Repr

/-- The measure section's `text` block (structured markup). -/
structure MeasureText where
  table : MeasureTable
deriving DecidableEq, Repr

/-- The `externalDocument` block (`qrda-types.ts`). -/
structure QrdaExternalDocument where
  classCode : String
  moodCode : String
  id : CcdaId
  text : String
  setId : CcdaId
deriving DecidableEq, Repr

/-- The measure `reference` block (`qrda-types.ts`). -/
structure QrdaMeasureReference where
  typeCode : String
  externalDocument : QrdaExternalDocument
deriving DecidableEq, Repr

/-- The measure `organizer` block (`qrda-types.ts`). -/
structure QrdaMeasureOrganizer where
  classCode : String
  moodCode : String
  templateId : List CcdaTemplateId
  id : CcdaId
  statusCode : CcdaCode
  reference : QrdaMeasureReference
deriving DecidableEq, Repr

/-- The measure section's single entry (`qrda-types.ts`). -/
structure QrdaMeasureEntry where
  organizer : QrdaMeasureOrganizer
deriving DecidableEq, Repr

/-- The measure section. -/
structure MeasureSection where
  templateId : List CcdaTemplateId
  code : CcdaCode
  title : String
  text : MeasureText
  entry : QrdaMeasureEntry
deriving DecidableEq, Repr

/-- The reporting-parameters `act`. -/
structure ReportingAct where
  classCode : String
  moodCode : String
  templateId : List CcdaTemplateId
  id : CcdaId
  code : CcdaCode
  effectiveTime : TimeInterval
deriving DecidableEq, Repr

/-- The reporting-parameters section's single entry. -/
structure ReportingEntry where
  typeCode : String
  act : ReportingAct
deriving DecidableEq, Repr

/-- The reporting-parameters section. -/
structure ReportingParametersSection where
  templateId : List CcdaTemplateId
  code : CcdaCode
  title : String
  text : String
  entry : ReportingEntry
deriving DecidableEq, Repr

/-- A patient-data entry.  In the current scope no constructor exists: the
source never builds one (encounters, interventions, procedures and payer
entries are explicitly deferred). -/
inductive PatientDataEntry where
deriving DecidableEq, Repr

/-- The patient-data section. -/
structure PatientDataSection where
  templateId : List CcdaTemplateId
  code : CcdaCode
  title : String
  text : String
  entry : List PatientDataEntry
deriving DecidableEq, Repr

/-- One component of the structured body: one of the three section kinds. -/
inductive SectionComponent where
  | measure (s : MeasureSection)
  | reportingParameters (s : ReportingParametersSection)
  | patientData (s : PatientDataSection)
deriving DecidableEq, Repr

/-- The `structuredBody` block. -/
structure StructuredBody where
  component : List SectionComponent
deriving DecidableEq, Repr

/-- The document's `component` wrapper. -/
structure BodyComponent where
  structuredBody : StructuredBody
deriving DecidableEq, Repr

/-- The QRDA document root. -/
structure QrdaDocument where
  realmCode : CcdaCode
  typeId : CcdaTemplateId
  templateId : List CcdaTemplateId
  id : List CcdaId
  code : CcdaCode
  title : String
  effectiveTime : List TimeBound
  confidentialityCode : CcdaCode
  languageCode : CcdaCode
  recordTarget : RecordTarget
  author : Author
  custodian : Custodian
  legalAuthenticator : LegalAuthenticator
  participant : List QrdaParticipant
  documentationOf : DocumentationOf
  component : BodyComponent
deriving DecidableEq, Repr

/-! ## Template registry (`qrda-templates.ts`) -/

/-- QRDA Category I template IDs for the document header. -/
def QRDA_CATEGORY_I_TEMPLATE_IDS : List CcdaTemplateId :=
  [{ root := OID_US_REALM_CDA_HEADER, ext := some "2015-08-01" },
   { root := OID_QRDA_CATEGORY_I, ext := some "2017-08-01" },
   { root := OID_QDM_BASED_QRDA, ext := some "2021-08-01" },
   { root := OID_CMS_QRDA_CATEGORY_I, ext := some "2022-02-01" }]

/-- QRDA measure section template IDs. -/
def QRDA_MEASURE_SECTION_TEMPLATE_IDS : List CcdaTemplateId :=
  [{ root := OID_MEASURE_SECTION },
   { root := OID_MEASURE_SECTION_QDM }]

/-- QRDA reporting-parameters section template IDs. -/
def QRDA_REPORTING_PARAMETERS_TEMPLATE_IDS : List CcdaTemplateId :=
  [{ root := OID_REPORTING_PARAMETERS_SECTION },
   { root := OID_REPORTING_PARAMETERS_SECTION_CMS, ext := some "2016-03-01" }]

/-- QRDA patient-data section template IDs. -/
def QRDA_PATIENT_DATA_SECTION_TEMPLATE_IDS : List CcdaTemplateId :=
  [{ root := OID_PATIENT_DATA_SECTION },
   { root := OID_PATIENT_DATA_SECTION_QDM_V8, ext := some "2021-08-01" },
   { root := OID_PATIENT_DATA_SECTION_QDM_V8_CMS, ext := some "2022-02-01" }]

/-- QRDA measure reference template IDs. -/
def QRDA_MEASURE_REFERENCE_TEMPLATE_IDS : List CcdaTemplateId :=
  [{ root := OID_MEASURE_REFERENCE },
   { root := OID_EMEASURE_REFERENCE_QDM }]

/-- QRDA reporting-parameters act template IDs. -/
def QRDA_REPORTING_PARAMETERS_ACT_TEMPLATE_IDS : List CcdaTemplateId :=
  [{ root := OID_REPORTING_PARAMETERS_ACT },
   { root := OID_REPORTING_PARAMETERS_ACT_CMS, ext := some "2016-03-01" }]

/-! ## The converter (`fhir-to-qrda.ts`) -/

/-- `findResource`: first bundle entry whose resource has the given
`resourceType`, returning its resource. -/
def findResource (bundle : Bundle) (resourceType : String) : Option Resource :=
  ((bundle.entry.getD []).find? fun e =>
    match e.resource with
    | some r => r.resourceType == resourceType
    | none => false).bind (·.resource)

/-- `buildRecordTarget`: patient demographics. -/
def buildRecordTarget (fmt : String → String) (patient : Patient) : RecordTarget :=
  let patientName := patient.name.head?
  let address := patient.address.head?
  let telecom := patient.telecom.find? fun t => t.system == some "phone"
  let email := patient.telecom.find? fun t => t.system == some "email"
  let raceCode := "2106-3"
  let ethnicityCode := "2135-2"
  { patientRole :=
    { id := { ext := patient.id, root := some OID_PATIENT_ID }
      addr := address.map fun a =>
        { use := some "HP"
          streetAddressLine := coal a.line.head? ""
          city := coal a.city ""
          state := coal a.state ""
          postalCode := coal a.postalCode ""
          country := jsOr a.country "US" }
      telecom :=
        [telecom.map fun t => { use := "HP", value := "tel:" ++ jsStr t.value },
         email.map fun t => { use := "HP", value := "mailto:" ++ jsStr t.value }].filterMap id
      patient :=
      { name :=
        { given := coal (patientName.bind fun n => n.given.head?) ""
          family := coal (patientName.bind (·.family)) "" }
        administrativeGenderCode :=
        { code := patient.gender
          codeSystem := some "2.16.840.1.113883.5.1"
          codeSystemName := some "AdministrativeGender" }
        birthTime := fmt (jsStr patient.birthDate ++ "T00:00:00.000Z")
        raceCode :=
        { code := some raceCode
          codeSystem := some "2.16.840.1.113883.6.238"
          codeSystemName := some "CDCREC" }
        ethnicGroupCode :=
        { code := some ethnicityCode
          codeSystem := some "2.16.840.1.113883.6.238"
          codeSystemName := some "CDCREC" }
        languageCommunication :=
        { templateId :=
          [{ root := "2.16.840.1.113883.3.88.11.83.2", assigningAuthorityName := some "HITSP/C83" },
           { root := "1.3.6.1.4.1.19376.1.5.3.1.2.1", assigningAuthorityName := some "IHE/PCC" }]
          languageCode := { code := some "eng" } } } } }

/-- `buildAuthor`: the author block, stamped with the captured build time. -/
def buildAuthor (fmt : String → String) (options : FhirToQrdaOptions)
    (currentDateTime : String) : Author :=
  let authorNpi := jsOr (options.author.bind (·.npi)) "1250504853"
  let authorName := jsOr (options.author.bind (·.name)) "Medplum Test System"
  let orgAddress := options.organization.bind (·.address)
  { time := fmt currentDateTime
    assignedAuthor :=
    { id := { ext := some authorNpi, root := some "2.16.840.1.113883.4.6" }
      addr :=
      { streetAddressLine := jsOr (orgAddress.bind (·.line)) "123 Happy St"
        city := jsOr (orgAddress.bind (·.city)) "Sunnyvale"
        state := jsOr (orgAddress.bind (·.state)) "CA"
        postalCode := jsOr (orgAddress.bind (·.postalCode)) "95008"
        country := jsOr (orgAddress.bind (·.country)) "US" }
      telecom := { use := "WP", value := "tel:(781)271-3000" }
      assignedAuthoringDevice :=
      { manufacturerModelName := authorName
        softwareName := authorName } } }

/-- `buildCustodian`. -/
def buildCustodian (options : FhirToQrdaOptions) : Custodian :=
  let orgName := jsOr (options.organization.bind (·.name)) "Medplum Test Deck"
  let orgId := jsOr (options.organization.bind (·.id)) "117323"
  let orgAddress := options.organization.bind (·.address)
  { assignedCustodian :=
    { representedCustodianOrganization :=
      { id := { ext := some orgId, root := some OID_CCN_SYSTEM }
        name := orgName
        telecom := { use := "WP", value := "tel:(781)271-3000" }
        addr :=
        { use := some "HP"
          streetAddressLine := jsOr (orgAddress.bind (·.line)) "202 Burlington Rd."
          city := jsOr (orgAddress.bind (·.city)) "Bedford"
          state := jsOr (orgAddress.bind (·.state)) "MA"
          postalCode := jsOr (orgAddress.bind (·.postalCode)) "01730"
          country := jsOr (orgAddress.bind (·.country)) "US" } } } }

/-- `buildLegalAuthenticator`: stamped with the captured build time; its
assigned entity id is the second `generateId` call of a conversion. -/
def buildLegalAuthenticator (fmt : String → String) (ids : Nat → String)
    (options : FhirToQrdaOptions) (currentDateTime : String) : LegalAuthenticator :=
  let orgAddress := options.organization.bind (·.address)
  { time := fmt currentDateTime
    signatureCode := { code := some "S" }
    assignedEntity :=
    { id := { root := some (ids 1) }
      addr :=
      { streetAddressLine := jsOr (orgAddress.bind (·.line)) "123 Happy St"
        city := jsOr (orgAddress.bind (·.city)) "Sunnyvale"
        state := jsOr (orgAddress.bind (·.state)) "CA"
        postalCode := jsOr (orgAddress.bind (·.postalCode)) "95008"
        country := jsOr (orgAddress.bind (·.country)) "US" }
      telecom := { use := "WP", value := "tel:(781)271-3000" }
      assignedPerson := { name := { given := "John", family := "Doe" } }
      representedOrganization :=
      { id := { root := some OID_ORGANIZATION_ID }
        name := some (jsOr (options.organization.bind (·.name)) "Medplum Test System") } } }

/-- `buildParticipant`: fixed device participant. -/
def buildParticipant : List QrdaParticipant :=
  [{ typeCode := "DEV"
     associatedEntity :=
     { classCode := "RGPR"
       id := { ext := some "0015CPV4ZTB4WBU", root := some OID_CMS_EHR_CERTIFICATION_NUMBER } } }]

/-- `buildDocumentationOf`. -/
def buildDocumentationOf (options : FhirToQrdaOptions) : DocumentationOf :=
  let orgAddress := options.organization.bind (·.address)
  { typeCode := "DOC"
    serviceEvent :=
    { classCode := "PCPR"
      effectiveTime :=
      { low := { nullFlavor := some "UNK" }
        high := { nullFlavor := some "UNK" } }
      performer :=
      { typeCode := "PRF"
        time :=
        { low := { nullFlavor := some "UNK" }
          high := { nullFlavor := some "UNK" } }
        assignedEntity :=
        { id :=
          [{ ext := some (jsOr (options.author.bind (·.npi)) "1250504853")
             root := some "2.16.840.1.113883.4.6" },
           { ext := some (jsOr (options.organization.bind (·.id)) "117323")
             root := some OID_CCN_SYSTEM }]
          code :=
          { code := some "207Q00000X"
            codeSystem := some "2.16.840.1.113883.6.101"
            codeSystemName := some "Healthcare Provider Taxonomy (HIPAA)" }
          addr :=
          { use := some "HP"
            streetAddressLine := jsOr (orgAddress.bind (·.line)) "202 Burlington Rd."
            city := jsOr (orgAddress.bind (·.city)) "Bedford"
            state := jsOr (orgAddress.bind (·.state)) "MA"
            postalCode := jsOr (orgAddress.bind (·.postalCode)) "01730"
            country := jsOr (orgAddress.bind (·.country)) "US" }
          assignedPerson := { name := { given := "Sylvia", family := "Joseph" } }
          representedOrganization :=
          { id := { ext := some "916854671", root := some OID_ITIN_ID }
            addr := some
              ({ use := some "HP"
                 streetAddressLine := jsOr (orgAddress.bind (·.line)) "202 Burlington Rd."
                 city := jsOr (orgAddress.bind (·.city)) "Bedford"
                 state := jsOr (orgAddress.bind (·.state)) "MA"
                 postalCode := jsOr (orgAddress.bind (·.postalCode)) "01730"
                 country := jsOr (orgAddress.bind (·.country)) "US" } : CcdaAddr) } } } } }

/-- `buildMeasureSection`: its organizer id is the third `generateId` call. -/
def buildMeasureSection (ids : Nat → String) (options : FhirToQrdaOptions) : MeasureSection :=
  let measureTitle := jsOr (options.measure.bind (·.title))
    "Percentage of visits for which the eligible clinician attests to documenting a list of current medications using all immediate resources available on the date of the encounter"
  let measureVersionId := "8A6D0454-8DF0-2D9F-018D-F6AEBA950637"
  { templateId := QRDA_MEASURE_SECTION_TEMPLATE_IDS
    code := { code := some LOINC_MEASURE_DOCUMENT, codeSystem := some OID_LOINC_CODE_SYSTEM }
    title := "Measure Section"
    text :=
    { table :=
      { border := "1"
        width := "100%"
        thead := { tr := { th := ["eMeasure Title", "Version specific identifier"] } }
        tbody := { tr := { td := [measureTitle, measureVersionId, ""] } } } }
    entry :=
    { organizer :=
      { classCode := "CLUSTER"
        moodCode := "EVN"
        templateId := QRDA_MEASURE_REFERENCE_TEMPLATE_IDS
        id := { ext := some (ids 2), root := some OID_PATIENT_ID }
        statusCode := { code := some "completed" }
        reference :=
        { typeCode := "REFR"
          externalDocument :=
          { classCode := "DOC"
            moodCode := "EVN"
            id := { ext := some measureVersionId, root := some OID_ECQM_VERSION_SPECIFIC_ID }
            text := measureTitle
            setId := { root := some (jsOr (options.measure.bind (·.setId)) CMS68V14_MEASURE_GUID) } } } } } }

/-- `buildReportingParametersSection`: its act id is the fourth `generateId`
call. -/
def buildReportingParametersSection (fmt : String → String) (ids : Nat → String)
    (options : FhirToQrdaOptions) : ReportingParametersSection :=
  { templateId := QRDA_REPORTING_PARAMETERS_TEMPLATE_IDS
    code := { code := some LOINC_REPORTING_PARAMETERS, codeSystem := some OID_LOINC_CODE_SYSTEM }
    title := "Reporting Parameters"
    text := ""
    entry :=
    { typeCode := "DRIV"
      act :=
      { classCode := "ACT"
        moodCode := "EVN"
        templateId := QRDA_REPORTING_PARAMETERS_ACT_TEMPLATE_IDS
        id := { ext := some (ids 3), root := some OID_PATIENT_ID }
        code :=
        { code := some SNOMED_OBSERVATION_PARAMETERS
          codeSystem := some "2.16.840.1.113883.6.96"
          displayName := some "Observation Parameters" }
        effectiveTime :=
        { low := { value := some (fmt options.reportingPeriodStart) }
          high := { value := some (fmt options.reportingPeriodEnd) } } } } }

/-- `buildPatientDataSection`: the entry list is empty by design (encounter,
intervention, procedure and payer entries are deferred). -/
def buildPatientDataSection : PatientDataSection :=
  let entries : List PatientDataEntry := []
  { templateId := QRDA_PATIENT_DATA_SECTION_TEMPLATE_IDS
    code := { code := some LOINC_PATIENT_DATA, codeSystem := some OID_LOINC_CODE_SYSTEM }
    title := "Patient Data"
    text := ""
    entry := entries }

/-- `buildStructuredBody`: the three sections, in fixed order. -/
def buildStructuredBody (fmt : String → String) (ids : Nat → String)
    (options : FhirToQrdaOptions) : BodyComponent :=
  { structuredBody :=
    { component :=
      [.measure (buildMeasureSection ids options),
       .reportingParameters (buildReportingParametersSection fmt ids options),
       .patientData buildPatientDataSection] } }

/-- `convert`: the full document, given the resolved patient and the captured
build-time timestamp `now`; the document id is the first `generateId` call. -/
def convert (fmt : String → String) (ids : Nat → String) (now : String)
    (patient : Patient) (options : FhirToQrdaOptions) : QrdaDocument :=
  { realmCode := { code := some "US" }
    typeId := { root := OID_HL7_REGISTERED_MODELS, ext := some "POCD_HD000040" }
    templateId := QRDA_CATEGORY_I_TEMPLATE_IDS
    id := [{ root := some (ids 0) }]
    code :=
    { code := some LOINC_QUALITY_MEASURE_REPORT
      codeSystem := some OID_LOINC_CODE_SYSTEM
      codeSystemName := some "LOINC"
      displayName := some "Quality Measure Report" }
    title := "QRDA Incidence Report"
    effectiveTime := [{ value := some (fmt now) }]
    confidentialityCode := { code := some "N", codeSystem := some "2.16.840.1.113883.5.25" }
    languageCode := { code := some "en" }
    recordTarget := buildRecordTarget fmt patient
    author := buildAuthor fmt options now
    custodian := buildCustodian options
    legalAuthenticator := buildLegalAuthenticator fmt ids options now
    participant := buildParticipant
    documentationOf := buildDocumentationOf options
    component := buildStructuredBody fmt ids options }

/-- The single checked failure mode: the bundle holds no patient record.
The source throws `new Error('Patient not found in bundle')`; the spec names
this failure mode MissingRequiredResource. -/
inductive QrdaError where
  | missingRequiredResource (msg : String)
deriving DecidableEq, Repr

/-- `convertFhirToQrda`: resolve the patient (the constructor's check), then
convert; on a missing patient no part of the document is built. -/
def convertFhirToQrda (fmt : String → String) (ids : Nat → String) (now : String)
    (bundle : Bundle) (options : FhirToQrdaOptions) : Except QrdaError QrdaDocument :=
  match findResource bundle "Patient" with
  | none => .error (.missingRequiredResource "Patient not found in bundle")
  | some r => .ok (convert fmt ids now r.asPatient options)

/-! ## Concrete inputs for witnesses -/

/-- A concrete timestamp canonicalizer (identity) for witness instances. -/
def idFmt : String → String := fun s => s

/-- A concrete unique-id sequence for witness instances. -/
def natIds : Nat → String := fun n => "id-" ++ toString n

/-- A concrete patient address for witness instances (no country given). -/
def sampleAddress : Address :=
  { line := ["1 Main St"], city := some "Boston", state := some "MA",
    postalCode := some "02110", country := none }

/-- A concrete patient for witness instances. -/
def samplePatient : Patient :=
  { id := some "patient-1"
    name := [{ given := ["Alice"], family := some "Smith" }]
    address := [sampleAddress]
    telecom := [{ system := some "phone", value := some "555-1234" },
                { system := some "email", value := some "alice@example.com" }]
    gender := some "female"
    birthDate := some "1980-01-01" }

/-- A concrete patient with no telecom entries and no address. -/
def noContactPatient : Patient := { id := some "patient-2" }

/-- A concrete bundle holding the sample patient. -/
def sampleBundle : Bundle :=
  { entry := some [{ resource := some (.patient samplePatient) }] }

/-- A concrete bundle holding no patient-kind resource. -/
def noPatientBundle : Bundle :=
  { entry := some [{ resource := some (.other "Observation") }, { resource := none }] }

/-- Concrete minimal options (only the required reporting period). -/
def sampleOptions : FhirToQrdaOptions :=
  { reportingPeriodStart := "2023-01-01", reportingPeriodEnd := "2023-12-31" }

/-! ## Helper lemmas -/

/-- A successful conversion resolves a patient resource from the bundle and
returns exactly the converted document. -/
theorem ok_elim (fmt : String → String) (ids : Nat → String) (now : String)
    (bundle : Bundle) (options : FhirToQrdaOptions) (doc : QrdaDocument)
    (h : convertFhirToQrda fmt ids now bundle options = Except.ok doc) :
    ∃ r, findResource bundle "Patient" = some r
      ∧ doc = convert fmt ids now r.asPatient options := by
  unfold convertFhirToQrda at h
  cases hf : findResource bundle "Patient" with
  | none => rw [hf] at h; exact absurd h (by simp)
  | some r =>
    rw [hf] at h
    refine ⟨r, rfl, ?_⟩
    injection h with h
    exact h.symm

/-- A bundle containing an entry whose resource is of kind Patient converts
successfully, to the document built from the first such resource. -/
theorem ok_intro (fmt : String → String) (ids : Nat → String) (now : String)
    (bundle : Bundle) (options : FhirToQrdaOptions)
    (h : ∃ e ∈ bundle.entry.getD [], e.resource.map Resource.resourceType = some "Patient") :
    ∃ r, findResource bundle "Patient" = some r
      ∧ convertFhirToQrda fmt ids now bundle options
          = Except.ok (convert fmt ids now r.asPatient options) := by
  obtain ⟨e, he, hmap⟩ := h
  have hsome : ((bundle.entry.getD []).find? fun e =>
      match e.resource with
      | some r => r.resourceType == "Patient"
      | none => false).isSome := by
    rw [List.find?_isSome]
    refine ⟨e, he, ?_⟩
    cases hres : e.resource with
    | none => rw [hres] at hmap; simp at hmap
    | some r =>
      rw [hres] at hmap
      simp only [Option.map_some'] at hmap
      injection hmap with hmap
      simpa using hmap
  obtain ⟨e', he'⟩ := Option.isSome_iff_exists.mp hsome
  have hp := List.find?_some he'
  cases hres : e'.resource with
  | none => rw [hres] at hp; simp at hp
  | some r' =>
    have hfind : findResource bundle "Patient" = some r' := by
      unfold findResource
      rw [he']
      simp [hres]
    refine ⟨r', hfind, ?_⟩
    unfold convertFhirToQrda
    rw [hfind]

/-! ## Claim theorems -/

/-- C1: for every bundle containing no entry whose resource is of kind
Patient, `convertFhirToQrda` fails with the MissingRequiredResource error
(`Error('Patient not found in bundle')` in the source), and no partial
document is observable: the result is exactly the error value, which carries
no part of the output tree. -/
theorem convertFhirToQrda_no_patient_fails (fmt : String → String)
    (ids : Nat → String) (now : String) (bundle : Bundle)
    (options : FhirToQrdaOptions)
    (h : ∀ e ∈ bundle.entry.getD [], ∀ r, e.resource = some r → r.resourceType ≠ "Patient") :
    convertFhirToQrda fmt ids now bundle options
      = Except.error (.missingRequiredResource "Patient not found in bundle") := by
  have hfind : findResource bundle "Patient" = none := by
    unfold findResource
    have : (bundle.entry.getD []).find?
        (fun e => match e.resource with
          | some r => r.resourceType == "Patient"
          | none => false) = none := by
      rw [List.find?_eq_none]
      intro e he
      cases hr : e.resource with
      | none => simp
      | some r => simpa using h e he r hr
    rw [this]
    rfl
  unfold convertFhirToQrda
  rw [hfind]

/-- Witness for C1 at a concrete patient-free bundle. -/
theorem convertFhirToQrda_no_patient_fails_witness :
    convertFhirToQrda idFmt natIds "2024-06-01T00:00:00.000Z" noPatientBundle sampleOptions
      = Except.error (.missingRequiredResource "Patient not found in bundle") :=
  convertFhirToQrda_no_patient_fails idFmt natIds "2024-06-01T00:00:00.000Z"
    noPatientBundle sampleOptions (by decide)

/-- C2: every bundle containing a Patient converts successfully, and the
returned document's structuredBody component list holds exactly three
sections, in the fixed order measure, reporting-parameters, patient-data. -/
theorem convertFhirToQrda_three_sections (fmt : String → String)
    (ids : Nat → String) (now : String) (bundle : Bundle)
    (options : FhirToQrdaOptions)
    (h : ∃ e ∈ bundle.entry.getD [], e.resource.map Resource.resourceType = some "Patient") :
    ∃ doc, convertFhirToQrda fmt ids now bundle options = Except.ok doc
      ∧ ∃ m r p, doc.component.structuredBody.component
        = [.measure m, .reportingParameters r, .patientData p] := by
  obtain ⟨res, -, hok⟩ := ok_intro fmt ids now bundle options h
  exact ⟨_, hok, _, _, _, rfl⟩

/-- Witness for C2 at the concrete sample bundle. -/
theorem convertFhirToQrda_three_sections_witness :
    ∃ doc, convertFhirToQrda idFmt natIds "2024-06-01T00:00:00.000Z"
        sampleBundle sampleOptions = Except.ok doc
      ∧ ∃ m r p, doc.component.structuredBody.component
        = [.measure m, .reportingParameters r, .patientData p] :=
  convertFhirToQrda_three_sections idFmt natIds "2024-06-01T00:00:00.000Z"
    sampleBundle sampleOptions (by decide)

/-- C3: every successfully returned document's header templateId equals the
Template Registry's fixed four-entry document-header set — US Realm CDA
header ext 2015-08-01, QRDA Category I ext 2017-08-01, QDM-based QRDA ext
2021-08-01, CMS QRDA Category I ext 2022-02-01 — in the registry's declared
order. -/
theorem convertFhirToQrda_header_templateId (fmt : String → String)
    (ids : Nat → String) (now : String) (bundle : Bundle)
    (options : FhirToQrdaOptions)
    (h : ∃ e ∈ bundle.entry.getD [], e.resource.map Resource.resourceType = some "Patient") :
    ∃ doc, convertFhirToQrda fmt ids now bundle options = Except.ok doc
      ∧ doc.templateId = QRDA_CATEGORY_I_TEMPLATE_IDS
      ∧ QRDA_CATEGORY_I_TEMPLATE_IDS =
        [{ root := OID_US_REALM_CDA_HEADER, ext := some "2015-08-01" },
         { root := OID_QRDA_CATEGORY_I, ext := some "2017-08-01" },
         { root := OID_QDM_BASED_QRDA, ext := some "2021-08-01" },
         { root := OID_CMS_QRDA_CATEGORY_I, ext := some "2022-02-01" }] := by
  obtain ⟨res, -, hok⟩ := ok_intro fmt ids now bundle options h
  exact ⟨_, hok, rfl, rfl⟩

/-- Witness for C3 at the concrete sample bundle. -/
theorem convertFhirToQrda_header_templateId_witness :
    ∃ doc, convertFhirToQrda idFmt natIds "2024-06-01T00:00:00.000Z"
        sampleBundle sampleOptions = Except.ok doc
      ∧ doc.templateId = QRDA_CATEGORY_I_TEMPLATE_IDS
      ∧ QRDA_CATEGORY_I_TEMPLATE_IDS =
        [{ root := OID_US_REALM_CDA_HEADER, ext := some "2015-08-01" },
         { root := OID_QRDA_CATEGORY_I, ext := some "2017-08-01" },
         { root := OID_QDM_BASED_QRDA, ext := some "2021-08-01" },
         { root := OID_CMS_QRDA_CATEGORY_I, ext := some "2022-02-01" }] :=
  convertFhirToQrda_header_templateId idFmt natIds "2024-06-01T00:00:00.000Z"
    sampleBundle sampleOptions (by decide)

/-- C4: for every valid input (a patient-containing bundle), the returned
document's reporting-parameters section act effectiveTime has low equal to
the canonicalized reporting period start and high equal to the canonicalized
end. -/
theorem reportingParameters_effectiveTime (fmt : String → String)
    (ids : Nat → String) (now : String) (bundle : Bundle)
    (options : FhirToQrdaOptions)
    (h : ∃ e ∈ bundle.entry.getD [], e.resource.map Resource.resourceType = some "Patient") :
    ∃ doc, convertFhirToQrda fmt ids now bundle options = Except.ok doc
      ∧ ∃ m r p, doc.component.structuredBody.component
          = [.measure m, .reportingParameters r, .patientData p]
        ∧ r.entry.act.effectiveTime.low
            = { value := some (fmt options.reportingPeriodStart) }
        ∧ r.entry.act.effectiveTime.high
            = { value := some (fmt options.reportingPeriodEnd) } := by
  obtain ⟨res, -, hok⟩ := ok_intro fmt ids now bundle options h
  exact ⟨_, hok, _, _, _, rfl, rfl, rfl⟩

/-- Witness for C4 with reporting period 2023-01-01 to 2023-12-31: the
low/high equal the canonicalized forms of those two timestamps. -/
theorem reportingParameters_effectiveTime_witness :
    ∃ doc, convertFhirToQrda idFmt natIds "2024-06-01T00:00:00.000Z"
        sampleBundle sampleOptions = Except.ok doc
      ∧ ∃ m r p, doc.component.structuredBody.component
          = [.measure m, .reportingParameters r, .patientData p]
        ∧ r.entry.act.effectiveTime.low = { value := some (idFmt "2023-01-01") }
        ∧ r.entry.act.effectiveTime.high = { value := some (idFmt "2023-12-31") } :=
  reportingParameters_effectiveTime idFmt natIds "2024-06-01T00:00:00.000Z"
    sampleBundle sampleOptions (by decide)

/-- C5: for every bundle containing a Patient and every options record, the
returned document's patient-data section has an empty entry list while
carrying its fixed TemplateSet, the LOINC patient-data code 55188-7, and its
title. -/
theorem patientData_section_empty (fmt : String → String)
    (ids : Nat → String) (now : String) (bundle : Bundle)
    (options : FhirToQrdaOptions)
    (h : ∃ e ∈ bundle.entry.getD [], e.resource.map Resource.resourceType = some "Patient") :
    ∃ doc, convertFhirToQrda fmt ids now bundle options = Except.ok doc
      ∧ ∃ m r p, doc.component.structuredBody.component
          = [.measure m, .reportingParameters r, .patientData p]
        ∧ p.entry = []
        ∧ p.templateId = QRDA_PATIENT_DATA_SECTION_TEMPLATE_IDS
        ∧ p.code = { code := some LOINC_PATIENT_DATA, codeSystem := some OID_LOINC_CODE_SYSTEM }
        ∧ LOINC_PATIENT_DATA = "55188-7"
        ∧ p.title = "Patient Data" := by
  obtain ⟨res, -, hok⟩ := ok_intro fmt ids now bundle options h
  exact ⟨_, hok, _, _, _, rfl, rfl, rfl, rfl, rfl, rfl⟩

/-- Witness for C5 at the concrete sample bundle. -/
theorem patientData_section_empty_witness :
    ∃ doc, convertFhirToQrda idFmt natIds "2024-06-01T00:00:00.000Z"
        sampleBundle sampleOptions = Except.ok doc
      ∧ ∃ m r p, doc.component.structuredBody.component
          = [.measure m, .reportingParameters r, .patientData p]
        ∧ p.entry = []
        ∧ p.templateId = QRDA_PATIENT_DATA_SECTION_TEMPLATE_IDS
        ∧ p.code = { code := some LOINC_PATIENT_DATA, codeSystem := some OID_LOINC_CODE_SYSTEM }
        ∧ LOINC_PATIENT_DATA = "55188-7"
        ∧ p.title = "Patient Data" :=
  patientData_section_empty idFmt natIds "2024-06-01T00:00:00.000Z"
    sampleBundle sampleOptions (by decide)

/-- C6: in every successfully returned document the three header timestamps —
document effectiveTime, author time, legal authenticator time — are all the
canonicalization of the single captured build-time timestamp, hence equal. -/
theorem header_timestamps_agree (fmt : String → String)
    (ids : Nat → String) (now : String) (bundle : Bundle)
    (options : FhirToQrdaOptions) (doc : QrdaDocument)
    (h : convertFhirToQrda fmt ids now bundle options = Except.ok doc) :
    ∃ t, doc.effectiveTime = [{ value := some t }]
      ∧ doc.author.time = t
      ∧ doc.legalAuthenticator.time = t
      ∧ t = fmt now := by
  obtain ⟨res, -, rfl⟩ := ok_elim fmt ids now bundle options doc h
  exact ⟨fmt now, rfl, rfl, rfl, rfl⟩

/-- Witness for C6 at the concrete sample bundle. -/
theorem header_timestamps_agree_witness :
    ∃ t, (convert idFmt natIds "2024-06-01T00:00:00.000Z" samplePatient
        sampleOptions).effectiveTime = [{ value := some t }]
      ∧ (convert idFmt natIds "2024-06-01T00:00:00.000Z" samplePatient
          sampleOptions).author.time = t
      ∧ (convert idFmt natIds "2024-06-01T00:00:00.000Z" samplePatient
          sampleOptions).legalAuthenticator.time = t
      ∧ t = idFmt "2024-06-01T00:00:00.000Z" :=
  header_timestamps_agree idFmt natIds "2024-06-01T00:00:00.000Z"
    sampleBundle sampleOptions _ rfl

/-- Filtering a two-element list of optionals keeps each present element,
in order. -/
theorem filterMap_pair {α : Type} (a b : Option α) :
    [a, b].filterMap id = a.toList ++ b.toList := by
  cases a <;> cases b <;> rfl

/-- C7: the recordTarget telecom list is built entry-by-entry — the first
phone and first email telecom, each independently optional, are each
included exactly when present (so a patient with no telecom entries gets an
empty list, with no placeholder values), and a phone telecom with value
555-1234 is rendered as tel:555-1234 while an email is rendered with a
mailto: prefix. -/
theorem recordTarget_telecom (fmt : String → String) (p : Patient) :
    (buildRecordTarget fmt p).patientRole.telecom =
        ((p.telecom.find? fun c => c.system == some "phone").map
          (fun c => TelecomEntry.mk "HP" ("tel:" ++ jsStr c.value))).toList ++
        ((p.telecom.find? fun c => c.system == some "email").map
          (fun c => TelecomEntry.mk "HP" ("mailto:" ++ jsStr c.value))).toList
    ∧ (p.telecom = [] → (buildRecordTarget fmt p).patientRole.telecom = [])
    ∧ (∀ c, (p.telecom.find? fun c => c.system == some "phone") = some c →
        c.value = some "555-1234" →
        TelecomEntry.mk "HP" "tel:555-1234" ∈ (buildRecordTarget fmt p).patientRole.telecom) := by
  have heq : (buildRecordTarget fmt p).patientRole.telecom =
      ((p.telecom.find? fun c => c.system == some "phone").map
        (fun c => TelecomEntry.mk "HP" ("tel:" ++ jsStr c.value))).toList ++
      ((p.telecom.find? fun c => c.system == some "email").map
        (fun c => TelecomEntry.mk "HP" ("mailto:" ++ jsStr c.value))).toList :=
    filterMap_pair _ _
  refine ⟨heq, ?_, ?_⟩
  · intro h
    rw [heq, h]
    rfl
  · intro c hph hv
    rw [heq, hph]
    have hval : "tel:" ++ jsStr c.value = "tel:555-1234" := by rw [hv]; rfl
    simp [hval]

/-- Witness for C7: the sample patient's phone renders as tel:555-1234 and
its email with a mailto: prefix, while the contact-free patient gets an
empty telecom list. -/
theorem recordTarget_telecom_witness :
    (buildRecordTarget idFmt noContactPatient).patientRole.telecom = []
    ∧ TelecomEntry.mk "HP" "tel:555-1234"
        ∈ (buildRecordTarget idFmt samplePatient).patientRole.telecom
    ∧ (buildRecordTarget idFmt samplePatient).patientRole.telecom =
        [TelecomEntry.mk "HP" "tel:555-1234",
         TelecomEntry.mk "HP" "mailto:alice@example.com"] :=
  ⟨(recordTarget_telecom idFmt noContactPatient).2.1 rfl,
   (recordTarget_telecom idFmt samplePatient).2.2
     { system := some "phone", value := some "555-1234" } rfl rfl,
   (recordTarget_telecom idFmt samplePatient).1⟩

/-- Options supplying an empty-string measure.setId (the C8 counterexample
input). -/
def emptySetIdOptions : FhirToQrdaOptions :=
  { measure := some { setId := some "" }
    reportingPeriodStart := "2023-01-01"
    reportingPeriodEnd := "2023-12-31" }

/-- Options supplying a non-empty measure.setId. -/
def customSetIdOptions : FhirToQrdaOptions :=
  { measure := some { setId := some "custom-set-id" }
    reportingPeriodStart := "2023-01-01"
    reportingPeriodEnd := "2023-12-31" }

/-- C8 counterexample: with measure.setId supplied as the empty string, the
measure section's externalDocument setId root is the default GUID, not the
supplied value — JS || treats the empty string as falsy. -/
theorem measure_setId_empty_counterexample :
    (buildMeasureSection natIds
        emptySetIdOptions).entry.organizer.reference.externalDocument.setId.root
      = some CMS68V14_MEASURE_GUID
    ∧ some CMS68V14_MEASURE_GUID ≠ (some "" : Option String) := by
  refine ⟨rfl, ?_⟩
  decide

/-- C8 (amended): with no measure setId supplied the measure section's
externalDocument setId root is the embedded default CMS68V14_MEASURE_GUID;
a supplied non-empty setId overrides it; a supplied empty-string setId falls
back to the default. -/
theorem measure_setId_default_and_override (ids : Nat → String)
    (options : FhirToQrdaOptions) :
    (options.measure.bind (·.setId) = none →
      (buildMeasureSection ids
          options).entry.organizer.reference.externalDocument.setId.root
        = some CMS68V14_MEASURE_GUID)
    ∧ (∀ s, options.measure.bind (·.setId) = some s → s ≠ "" →
      (buildMeasureSection ids
          options).entry.organizer.reference.externalDocument.setId.root = some s)
    ∧ (options.measure.bind (·.setId) = some "" →
      (buildMeasureSection ids
          options).entry.organizer.reference.externalDocument.setId.root
        = some CMS68V14_MEASURE_GUID) := by
  have base : (buildMeasureSection ids
      options).entry.organizer.reference.externalDocument.setId.root
      = some (jsOr (options.measure.bind (·.setId)) CMS68V14_MEASURE_GUID) := rfl
  refine ⟨?_, ?_, ?_⟩
  · intro h
    rw [base, h]
    rfl
  · intro s h hs
    rw [base, h]
    simp [jsOr, hs]
  · intro h
    rw [base, h]
    rfl

/-- Witness for C8's amended claim: default GUID with no measure option, and
override with a supplied non-empty setId. -/
theorem measure_setId_default_and_override_witness :
    (buildMeasureSection natIds
        sampleOptions).entry.organizer.reference.externalDocument.setId.root
      = some CMS68V14_MEASURE_GUID
    ∧ (buildMeasureSection natIds
        customSetIdOptions).entry.organizer.reference.externalDocument.setId.root
      = some "custom-set-id" :=
  ⟨(measure_setId_default_and_override natIds sampleOptions).1 rfl,
   (measure_setId_default_and_override natIds customSetIdOptions).2.1
     "custom-set-id" rfl (by decide)⟩

/-- C9: the measure.id and measure.version options have no effect on the
output — two conversions with the same bundle, canonicalizer, captured
timestamp and generated-id sequence whose options differ only in measure.id
and/or measure.version produce structurally equal documents; moreover the
entry's version-specific identifier is always the hardcoded constant
8A6D0454-8DF0-2D9F-018D-F6AEBA950637. -/
theorem measure_id_version_noninterference (fmt : String → String)
    (ids : Nat → String) (now : String) (bundle : Bundle)
    (o : FhirToQrdaOptions) (m : MeasureOptions) (i1 v1 i2 v2 : Option String) :
    convertFhirToQrda fmt ids now bundle
        { o with measure := some { m with id := i1, version := v1 } }
      = convertFhirToQrda fmt ids now bundle
        { o with measure := some { m with id := i2, version := v2 } }
    ∧ ∀ opts, (buildMeasureSection ids
        opts).entry.organizer.reference.externalDocument.id.ext
        = some "8A6D0454-8DF0-2D9F-018D-F6AEBA950637" := by
  constructor
  · unfold convertFhirToQrda
    cases findResource bundle "Patient" <;> rfl
  · intro opts
    rfl

/-- C10: the recordTarget address block is present exactly when the patient
has an address; its country is never empty (an absent or empty-string
country renders as US), while absent street, city, state and postal-code
fields render as the empty string. -/
theorem recordTarget_addr_country (fmt : String → String) (p : Patient) :
    (p.address = [] → (buildRecordTarget fmt p).patientRole.addr = none)
    ∧ ∀ a rest, p.address = a :: rest →
        ∃ ab, (buildRecordTarget fmt p).patientRole.addr = some ab
          ∧ ab.country ≠ ""
          ∧ ((a.country = none ∨ a.country = some "") → ab.country = "US")
          ∧ (a.line = [] → ab.streetAddressLine = "")
          ∧ (a.city = none → ab.city = "")
          ∧ (a.state = none → ab.state = "")
          ∧ (a.postalCode = none → ab.postalCode = "") := by
  have base : (buildRecordTarget fmt p).patientRole.addr
      = p.address.head?.map (fun a =>
        { use := some "HP"
          streetAddressLine := coal a.line.head? ""
          city := coal a.city ""
          state := coal a.state ""
          postalCode := coal a.postalCode ""
          country := jsOr a.country "US" }) := rfl
  constructor
  · intro h
    rw [base, h]
    rfl
  · intro a rest h
    rw [base, h]
    refine ⟨_, rfl, ?_, ?_, ?_, ?_, ?_, ?_⟩
    · show jsOr a.country "US" ≠ ""
      cases a.country with
      | none => decide
      | some s =>
        simp only [jsOr]
        split
        · decide
        · assumption
    · intro hc
      show jsOr a.country "US" = "US"
      rcases hc with hc | hc <;> rw [hc] <;> rfl
    · intro hl
      show coal a.line.head? "" = ""
      rw [hl]
      rfl
    · intro hc
      show coal a.city "" = ""
      rw [hc]
      rfl
    · intro hs
      show coal a.state "" = ""
      rw [hs]
      rfl
    · intro hp
      show coal a.postalCode "" = ""
      rw [hp]
      rfl

/-- Witness for C10: the sample patient's address (country absent) renders
with country US, and the address-free patient gets no address block. -/
theorem recordTarget_addr_country_witness :
    (buildRecordTarget idFmt noContactPatient).patientRole.addr = none
    ∧ ∃ ab, (buildRecordTarget idFmt samplePatient).patientRole.addr = some ab
      ∧ ab.country ≠ "" ∧ ab.country = "US" := by
  refine ⟨(recordTarget_addr_country idFmt noContactPatient).1 rfl, ?_⟩
  obtain ⟨ab, h1, h2, h3, -, -, -, -⟩ :=
    (recordTarget_addr_country idFmt samplePatient).2 sampleAddress [] rfl
  exact ⟨ab, h1, h2, h3 (Or.inl rfl)⟩

end Qrda
